import Mathlib

/-
  Verification development for the JR-Catering back-office API.

  The Python source is embedded shallowly: pure request handlers become Lean
  functions, the database session becomes explicit state passing over lists of
  rows, exceptions become `Except` / `Option` results, and the uniform JSON
  envelope becomes a record.  Definitions follow the Python code
  (apps/vadmin/product/crud.py, apps/vadmin/product/views.py,
  apps/vadmin/product/schemas/dish.py, apps/vadmin/product/models/dish.py,
  apps/vadmin/system/views.py, core/exception.py); parts of the repository
  that live outside the provided sources (the generic `DalBase` CRUD engine in
  core/crud.py and the system CRUD layer) are modelled from the specification
  and are marked as such in their doc comments.
-/

namespace JRCatering

/-! ## Uniform response envelope (core/exception.py, utils/response.py) -/

/-- A Starlette `JSONResponse` as produced by the exception handlers in
core/exception.py: the outer HTTP status plus the JSON envelope fields
`message`, `code` and the optional `body` echo of the offending payload. -/
structure JsonResponse where
  status_code : Nat
  message : String
  code : Nat
  body : Option String
deriving DecidableEq

/-- Result of a route handler: `SuccessResponse` / `ErrorResponse`
(utils/response.py), reduced to the success flag and the carried message. -/
inductive ApiResponse where
  | success (msg : String)
  | error (msg : String)
deriving DecidableEq

/-- Whether an `ApiResponse` is the error variant. -/
def ApiResponse.isError : ApiResponse → Bool
  | .success _ => false
  | .error _ => true

/-! ## Exception handlers (core/exception.py) -/

/-- The message-rewriting chain of `validation_exception_handler`
(core/exception.py lines 86-97): five known English pydantic messages are
replaced by fixed Chinese texts, any other message passes through. -/
def rewrite_validation_msg (msg : String) : String :=
  if msg = "field required" then "请求失败，缺少必填项！"
  else if msg = "value is not a valid list" then "类型错误，提交参数应该为列表！"
  else if msg = "value is not a valid int" then "类型错误，提交参数应该为整数！"
  else if msg = "value could not be parsed to a boolean" then "类型错误，提交参数应该为布尔值！"
  else if msg = "Input should be a valid list" then "类型错误，输入应该是一个有效的列表！"
  else msg

/-- `validation_exception_handler` (core/exception.py lines 75-107).  Input is
the list of validation error messages (`exc.errors()`, projected to their
`msg` fields, in order) and the offending request body.  The handler reads
`exc.errors()[0]` — on an empty error list the Python code itself would raise
(`IndexError`), modelled by `none`. -/
def validation_exception_handler (errors : List String) (body : String) : Option JsonResponse :=
  match errors with
  | [] => none
  | msg :: _ =>
    some { status_code := 200, message := rewrite_validation_msg msg,
           code := 400, body := some body }

/-- A caught Python exception object, reduced to what
`all_exception_handler` inspects: its truthiness (`if exc`) and its string
rendering (`str(exc)`). -/
structure PyException where
  truthy : Bool
  text : String
deriving DecidableEq

/-- `all_exception_handler` (core/exception.py lines 130-161): every exception
not handled by a more specific handler is answered with HTTP status 500 and an
envelope carrying code 500 and the raw exception string (or the fixed text
when the exception object is falsy). -/
def all_exception_handler (exc : PyException) : JsonResponse :=
  let exception_message := if exc.truthy then exc.text else "接口异常！"
  { status_code := 500, message := exception_message, code := 500, body := none }

/-! ## Product data model (apps/vadmin/product/models/dish.py) -/

/-- A row of the `dish` table (models/dish.py class `Dish`), restricted to the
columns the verified operations touch.  The `name_unique` column is declared
`String(50)` (line 60). -/
structure Dish where
  id : Nat
  name_unique : String
  kitchen_id : Int
  name_display : Option String
  status : Int
deriving DecidableEq

/-- A row of the `dish_image` table (models/dish.py class `DishImage`). -/
structure DishImage where
  product_type : Nat
  product_id : Nat
  img_platform : String
  img_url : String
  is_first : Nat
  order_number : Nat
deriving DecidableEq

/-- The slice of the store that `DishDal.update_image` touches: the ids of the
existing `dish` rows and the `dish_image` table in insertion order. -/
structure ImageStore where
  dish_ids : List Nat
  images : List DishImage
deriving DecidableEq

/-! ## String splitting (Python `str.split`) -/

/-- Auxiliary state machine for single-separator `str.split`: `acc` holds the
characters of the current chunk in reverse. -/
def splitCharAux (sep : Char) : List Char → List Char → List String
  | [], acc => [String.mk acc.reverse]
  | c :: cs, acc =>
    if c = sep then String.mk acc.reverse :: splitCharAux sep cs []
    else splitCharAux sep cs (c :: acc)

/-- Python `oper_str.split('?')` as used by `DishDal.update_image`
(crud.py lines 94-95): the directive string cut at every question mark. -/
def operParts (s : String) : List String := splitCharAux '?' s.data []

/-- The first chunk of a directive, Python `oper_str.split('?')[0]`. -/
def dirUrl (s : String) : String := (operParts s).headD ""

/-- The url carried by a directive whose operation type parses as `add`
(`oper_str.split('?')[1] == 'add'`), if any. -/
def dirAddUrl (s : String) : Option String :=
  match operParts s with
  | u :: t :: _ => if t = "add" then some u else none
  | _ => none

/-- All urls that `add` directives of the list would insert. -/
def addUrls (opers : List String) : List String := opers.filterMap dirAddUrl

/-- The urls present in a list of `dish_image` rows. -/
def imgUrls (imgs : List DishImage) : List String := imgs.map (fun i => i.img_url)

/-- Replace the first element satisfying `p` by its image under `f`
(the ORM mutation of the single row returned by `.first()`). -/
def modifyFirst {α : Type} (p : α → Bool) (f : α → α) : List α → List α
  | [] => []
  | x :: xs => if p x then f x :: xs else x :: modifyFirst p f xs

/-- Remove the first element satisfying `p` (the ORM `session.delete` of the
single row returned by `.first()`). -/
def eraseFirst {α : Type} (p : α → Bool) : List α → List α
  | [] => []
  | x :: xs => if p x then xs else x :: eraseFirst p xs

/-- Mutation performed by the `update` branch of `DishDal.update_image`
(crud.py lines 112-120) on the selected row: assign `order_number`, then fix
up `is_first` exactly as the Python if/elif chain does. -/
def applyUpdate (n : Nat) (img : DishImage) : DishImage :=
  let img := { img with order_number := n }
  if n = 10 ∧ img.is_first ≠ 1 then { img with is_first := 1 }
  else if n > 10 ∧ img.is_first = 1 then { img with is_first := 0 }
  else img

/-- Mutation performed by the `original` branch of `DishDal.update_image`
(crud.py lines 121-130): conditional `order_number` assignment followed by the
same `is_first` fix-up chain. -/
def applyOriginal (n : Nat) (img : DishImage) : DishImage :=
  let img := if img.order_number ≠ n then { img with order_number := n } else img
  if n = 10 ∧ img.is_first ≠ 1 then { img with is_first := 1 }
  else if n > 10 ∧ img.is_first = 1 then { img with is_first := 0 }
  else img

namespace DishDal

/-- The directive loop of `DishDal.update_image` (crud.py lines 91-132),
threading the running `order_number` and the working `dish_image` table (the
session with pending changes visible, as SQLAlchemy autoflush makes them).
Each failure mode of the Python loop becomes an `Except.error`: an empty url,
a `delete` whose `.first()` is `None` (Python would raise from
`session.delete(None)`), an `update`/`original` whose `.first()` is `None`
(attribute assignment on `None` raises), an unknown operation type, and a
directive without a question mark (`split('?')[1]` raises `IndexError`). -/
def applyOpers (data_id : Nat) : List String → Nat → List DishImage → Except String (List DishImage)
  | [], _, imgs => .ok imgs
  | oper_str :: rest, order_number, imgs =>
    match operParts oper_str with
    | url :: oper_type :: _ =>
      if url = "" then .error "菜品图片地址无效"
      else
        let n := order_number + 10
        if oper_type = "add" then
          let bFirst : Nat := if n = 10 then 1 else 0
          applyOpers data_id rest n
            (imgs ++ [{ product_type := 1, product_id := data_id, img_platform := "default",
                        img_url := url, is_first := bFirst, order_number := n }])
        else if oper_type = "delete" then
          match imgs.find? (fun i => i.img_url == url) with
          | none => .error "UnmappedInstanceError"
          | some _ => applyOpers data_id rest (n - 10) (eraseFirst (fun i => i.img_url == url) imgs)
        else if oper_type = "update" then
          match imgs.find? (fun i => i.img_url == url) with
          | none => .error "AttributeError"
          | some _ => applyOpers data_id rest n (modifyFirst (fun i => i.img_url == url) (applyUpdate n) imgs)
        else if oper_type = "original" then
          match imgs.find? (fun i => i.img_url == url) with
          | none => .error "AttributeError"
          | some _ => applyOpers data_id rest n (modifyFirst (fun i => i.img_url == url) (applyOriginal n) imgs)
        else .error "菜品图片操作失败：无效的操作类型：{oper_type}"
    | _ => .error "IndexError"

/-- `DishDal.update_image` (crud.py lines 83-134): a missing dish id raises
(crud.py lines 87-89), otherwise the directive loop runs with `order_number`
starting at 0.  The result is the `dish_image` table the session holds when
the method returns, or the raised exception. -/
def update_image (store : ImageStore) (data_id : Nat) (oper_url : List String) :
    Except String (List DishImage) :=
  if store.dish_ids.contains data_id then applyOpers data_id oper_url 0 store.images
  else .error "菜品id无效：{dish_id}"

/-- Modelled from the spec: the request-scoped transactional session (core/
database.py is not under src) — §5 "every operation opens, uses, and releases
one request-scoped transactional session", §7 "each request either fully
succeeds or fully fails".  The image-update step commits its working table on
success; when `update_image` raises, the session is rolled back and the store
is unchanged. -/
def commitImageStep (store : ImageStore) (data_id : Nat) (oper_url : List String) : ImageStore :=
  match update_image store data_id oper_url with
  | .ok imgs => { store with images := imgs }
  | .error _ => store

/-- The rows an all-`add` directive list appends, with the running
`order_number` threaded exactly as the loop does: chunk `i` (0-based) of the
url list gets `order_number = n + 10 * (i + 1)` and `is_first = 1` exactly
when that number is 10. -/
def addedImages (data_id : Nat) : Nat → List String → List DishImage
  | _, [] => []
  | n, u :: us =>
    { product_type := 1, product_id := data_id, img_platform := "default",
      img_url := u, is_first := if n + 10 = 10 then 1 else 0, order_number := n + 10 }
      :: addedImages data_id (n + 10) us

/-- The dict returned by the bulk operations of `DishDal`. -/
structure BulkRtn where
  result : Bool
  msg : String
deriving DecidableEq

/-- `DishDal.upload` (crud.py lines 136-160): always returns
`result = False`, with `msg = "菜品无效"` when the dish argument is falsy
(`None`) and the empty string otherwise; the session is never touched. -/
def upload {σ : Type} (dish : Option Dish) (db : σ) : BulkRtn × σ :=
  let rtn : BulkRtn := { result := false, msg := "" }
  let rtn := if dish.isNone then { rtn with msg := "菜品无效" } else rtn
  (rtn, db)

/-- `DishDal.online` (crud.py lines 162-186): same body as `upload`. -/
def online {σ : Type} (dish : Option Dish) (db : σ) : BulkRtn × σ :=
  let rtn : BulkRtn := { result := false, msg := "" }
  let rtn := if dish.isNone then { rtn with msg := "菜品无效" } else rtn
  (rtn, db)

/-- `DishDal.offline` (crud.py lines 188-212): same body as `upload`. -/
def offline {σ : Type} (dish : Option Dish) (db : σ) : BulkRtn × σ :=
  let rtn : BulkRtn := { result := false, msg := "" }
  let rtn := if dish.isNone then { rtn with msg := "菜品无效" } else rtn
  (rtn, db)

end DishDal

/-! ## Bulk import (DishDal.import_headers, crud.py lines 61-75) -/

/-- One entry of a DAL import header declaration: Excel column label, model
field name, required flag. -/
structure ImportHeader where
  label : String
  field : String
  required : Bool
deriving DecidableEq

/-- `DishDal.import_headers` (crud.py lines 61-75), verbatim. -/
def dish_import_headers : List ImportHeader := [
  { label := "名称", field := "name_unique", required := true },
  { label := "厨部", field := "kitchen_id", required := true },
  { label := "显示名称", field := "name_display", required := false },
  { label := "英文名称", field := "name_english", required := false },
  { label := "规格", field := "spec", required := false },
  { label := "单位", field := "unit", required := false },
  { label := "价格", field := "price", required := false },
  { label := "上架时间", field := "time_on", required := false },
  { label := "下架时间", field := "time_off", required := false },
  { label := "排序号", field := "order_number", required := false },
  { label := "状态", field := "status", required := true },
  { label := "简介", field := "description", required := false },
  { label := "英文简介", field := "description_english", required := false }]

/-- Modelled from the spec: the generic bulk-import row check of `DalBase`
(core/crud.py is not under src) — §4.1 "accepts a sequence of
row-dictionaries validated against a declared header schema (label, field
name, required flag)".  A row is a field-name/value association list; the
check returns the first header (in declaration order) whose field is required
but absent from the row. -/
def rowMissing (headers : List ImportHeader) (row : List (String × String)) :
    Option ImportHeader :=
  headers.find? (fun h => h.required && (row.lookup h.field).isNone)

/-- Modelled from the spec: the generic bulk-import loop of `DalBase`
(core/crud.py is not under src) — §4.1 "fails fast on the first row missing a
required field, reporting the row index and field label"; per-row insertion,
so rows before the failing one are inserted and nothing after it is.  Returns
the inserted rows and, on failure, the 1-based row index with the field
label. -/
def importFrom (headers : List ImportHeader) :
    Nat → List (List (String × String)) →
    List (List (String × String)) × Option (Nat × String)
  | _, [] => ([], none)
  | idx, r :: rest =>
    match rowMissing headers r with
    | some h => ([], some (idx, h.label))
    | none =>
      let res := importFrom headers (idx + 1) rest
      (r :: res.1, res.2)

/-- Modelled from the spec: `DalBase` bulk import entry point (core/crud.py is
not under src), starting the row count at 1. -/
def import_rows (headers : List ImportHeader) (rows : List (List (String × String))) :
    List (List (String × String)) × Option (Nat × String) :=
  importFrom headers 1 rows

/-! ## Generic list pagination (DalBase.get_datas) -/

/-- Modelled from the spec: the pagination of the generic DAO `list`
(core/crud.py is not under src) — §4.1 "Pagination: `limit=0` means return
all matching rows, no slicing; otherwise returns at most `limit` rows
starting at `offset`."  `rows` is the store in its query ordering; filters
combine by AND into the single predicate `spec`. -/
def get_datas {α : Type} (spec : α → Bool) (limit offset : Nat) (rows : List α) : List α :=
  let matching := rows.filter spec
  if limit = 0 then matching else (matching.drop offset).take limit

/-! ## Menu hierarchy (apps/vadmin/system/views.py, put_menus) -/

/-- A row of the menu table restricted to the tree structure: surrogate id
and nullable self-referential `parent_id`. -/
structure Menu where
  id : Nat
  parent_id : Option Nat
deriving DecidableEq

/-- Modelled from the spec: `MenuDal.put_data` (apps/vadmin/system/crud.py is
not under src) — §4.1 "update(id, payload): partial update: only fields
present in payload are modified; fails with NotFound if id does not resolve";
here the payload carries the new `parent_id`.  The spec notes (§8) that the
source performs no cycle validation at write time, so none is modelled. -/
def menu_put_data (store : List Menu) (data_id : Nat) (new_parent_id : Option Nat) :
    Except String (List Menu) :=
  if store.any (fun m => m.id == data_id) then
    .ok (store.map (fun m => if m.id == data_id then { m with parent_id := new_parent_id } else m))
  else .error "NotFound"

/-- `put_menus` (system/views.py lines 249-254): the handler passes the
payload straight to `MenuDal.put_data` with no validation of its own. -/
def put_menus (store : List Menu) (data_id : Nat) (new_parent_id : Option Nat) :
    Except String (List Menu) :=
  menu_put_data store data_id new_parent_id

/-- The `parent_id` of the menu row with id `i`, if such a row exists. -/
def parentOf (store : List Menu) (i : Nat) : Option Nat :=
  match store.find? (fun m => m.id == i) with
  | some m => m.parent_id
  | none => none

/-- `i` is an ancestor of `j`: following `parent_id` hops from `j`, `i` is
reached within `fuel` steps. -/
def ancestorWithin (store : List Menu) : Nat → Nat → Nat → Bool
  | 0, _, _ => false
  | fuel + 1, i, j =>
    match parentOf store j with
    | some p => p == i || ancestorWithin store fuel i p
    | none => false

/-! ## User and role endpoints (apps/vadmin/system/views.py) -/

/-- A row of the `vadmin_user` table restricted to what the batch delete
touches: id, soft-delete flag, active flag. -/
structure VadminUser where
  id : Nat
  is_delete : Bool
  is_active : Bool
deriving DecidableEq

/-- A row of the `vadmin_role` table restricted to id and name. -/
structure VadminRole where
  id : Nat
  name : String
deriving DecidableEq

/-- The slice of the store the user/role endpoints touch. -/
structure AuthState where
  users : List VadminUser
  roles : List VadminRole
deriving DecidableEq

/-- Modelled from the spec: `UserDal.delete_datas(ids, v_soft=True,
is_active=False)` (apps/vadmin/system/crud.py and core/crud.py are not under
src) — §4.1 "Soft delete sets `is_delete=true` ... and optionally additional
fields supplied by the caller (e.g., `is_active=false`)". -/
def user_delete_datas (ids : List Nat) (st : AuthState) : AuthState :=
  let upd : VadminUser → VadminUser := fun u =>
    if u.id ∈ ids then { u with is_delete := true, is_active := false } else u
  { st with users := st.users.map upd }

/-- Modelled from the spec: `RoleDal.delete_datas(ids, v_soft=False)`
(apps/vadmin/system/crud.py and core/crud.py are not under src) — §4.1 hard
delete removes the rows (the referential-conflict guard is out of scope
here). -/
def role_delete_datas (ids : List Nat) (st : AuthState) : AuthState :=
  { st with roles := st.roles.filter (fun r => !(ids.contains r.id)) }

/-- Modelled from the spec: `RoleDal.put_data` (apps/vadmin/system/crud.py and
core/crud.py are not under src) — §4.1 update of the row with the given id
from the payload. -/
def role_put_data (data_id : Nat) (new_name : String) (st : AuthState) : AuthState :=
  let upd : VadminRole → VadminRole := fun r =>
    if r.id = data_id then { r with name := new_name } else r
  { st with roles := st.roles.map upd }

/-- `delete_users` (system/views.py lines 65-72): refuses an id list
containing the calling user's id or the id 1, otherwise soft-deletes with
`is_active=False`. -/
def delete_users (auth_user_id : Nat) (ids : List Nat) (st : AuthState) :
    ApiResponse × AuthState :=
  if auth_user_id ∈ ids then (.error "不能删除当前登录用户", st)
  else if 1 ∈ ids then (.error "不能删除超级管理员用户", st)
  else (.success "删除成功", user_delete_datas ids st)

/-- `delete_roles` (system/views.py lines 179-184): refuses an id list
containing the id 1, otherwise hard-deletes. -/
def delete_roles (ids : List Nat) (st : AuthState) : ApiResponse × AuthState :=
  if 1 ∈ ids then (.error "不能删除管理员角色", st)
  else (.success "删除成功", role_delete_datas ids st)

/-- `put_role` (system/views.py lines 187-195): refuses `data_id = 1`,
otherwise updates the role. -/
def put_role (data_id : Nat) (new_name : String) (st : AuthState) :
    ApiResponse × AuthState :=
  if data_id = 1 then (.error "不能修改管理员角色", st)
  else (.success "", role_put_data data_id new_name st)

/-! ## Dish schema validation (apps/vadmin/product/schemas/dish.py) -/

/-- The pydantic bound on `Dish.name_unique` (schemas/dish.py line 18:
`Annotated[str, Field(max_length=10)]`). -/
def dish_schema_name_unique_max_length : Nat := 10

/-- The column capacity of `dish.name_unique` (models/dish.py line 60:
`String(50)`). -/
def dish_column_name_unique_capacity : Nat := 50

/-- A dish create/update payload, restricted to the schema fields the
verified path touches (schemas/dish.py class `Dish` / `DishIn`). -/
structure DishPayload where
  name_unique : String
  kitchen_id : Int
  name_display : String
  status : Int
deriving DecidableEq

/-- The pydantic validation FastAPI runs on the `name_unique` field of a
`DishIn` payload before the route handler body executes: at most 10
characters (schemas/dish.py line 18). -/
def validate_dish_payload (p : DishPayload) : Bool :=
  p.name_unique.length ≤ dish_schema_name_unique_max_length

/-- The `dish` table. -/
structure DishTable where
  rows : List Dish
deriving DecidableEq

/-- Modelled from the spec: `DishDal.create_data` insertion (core/crud.py is
not under src) — §4.1 `create(payload) -> Entity`. -/
def dish_create_data (payload : DishPayload) (next_id : Nat) (tbl : DishTable) : DishTable :=
  let row : Dish :=
    { id := next_id, name_unique := payload.name_unique,
      kitchen_id := payload.kitchen_id, name_display := some payload.name_display,
      status := payload.status }
  { rows := tbl.rows ++ [row] }

/-- Modelled from the spec: `DishDal.put_data` update (core/crud.py is not
under src) — §4.1 `update(id, payload)`: fields present in the payload are
written to the row with the given id. -/
def dish_put_data (data_id : Nat) (payload : DishPayload) (tbl : DishTable) : DishTable :=
  let upd : Dish → Dish := fun d =>
    if d.id = data_id then
      { d with name_unique := payload.name_unique, kitchen_id := payload.kitchen_id,
               name_display := some payload.name_display, status := payload.status }
    else d
  { rows := tbl.rows.map upd }

/-- `POST /dish` (`create_dish`, product/views.py lines 214-219) as seen
through FastAPI: the payload is validated against the `DishIn` schema before
the handler body runs; on failure the request is answered by
`validation_exception_handler` and nothing is written, on success the row is
inserted.  (The subsequent image step of the handler is independent of the
`name_unique` bound and not part of this model.) -/
def create_dish (payload : DishPayload) (next_id : Nat) (tbl : DishTable) :
    JsonResponse × DishTable :=
  if validate_dish_payload payload then
    ({ status_code := 200, message := "", code := 200, body := none },
     dish_create_data payload next_id tbl)
  else
    ({ status_code := 200, message := "ensure this value has at most 10 characters",
       code := 400, body := some payload.name_unique }, tbl)

/-- `PUT /dish/{data_id}` (`put_dish`, product/views.py lines 228-238) as seen
through FastAPI, analogous to `create_dish`. -/
def put_dish (data_id : Nat) (payload : DishPayload) (tbl : DishTable) :
    JsonResponse × DishTable :=
  if validate_dish_payload payload then
    ({ status_code := 200, message := "", code := 200, body := none },
     dish_put_data data_id payload tbl)
  else
    ({ status_code := 200, message := "ensure this value has at most 10 characters",
       code := 400, body := some payload.name_unique }, tbl)

/-! ## Sample rows for concrete evaluations -/

/-- A well-formed dish import row: all three required fields present. -/
def sampleDishRow : List (String × String) :=
  [("name_unique", "样例"), ("kitchen_id", "1"), ("status", "0")]

/-- A dish import row missing the required `name_unique` field. -/
def dishRowMissingName : List (String × String) :=
  [("kitchen_id", "1"), ("status", "0")]

/-- A small user/role store: the superuser (id 1) and one ordinary user. -/
def sampleAuthState : AuthState :=
  { users := [{ id := 1, is_delete := false, is_active := true },
              { id := 2, is_delete := false, is_active := true }],
    roles := [{ id := 1, name := "管理员" }, { id := 2, name := "前台" }] }

/-- A dish table holding one valid row. -/
def sampleDishTable : DishTable :=
  { rows := [{ id := 1, name_unique := "宫保鸡丁", kitchen_id := 1,
               name_display := some "宫保鸡丁", status := 0 }] }

/-- A dish payload whose `name_unique` has 12 characters, over the schema
bound of 10 (yet within the column capacity of 50). -/
def longDishPayload : DishPayload :=
  { name_unique := "一二三四五六七八九十十一", kitchen_id := 1,
    name_display := "x", status := 0 }

/-- A dish payload whose `name_unique` is within the schema bound. -/
def okDishPayload : DishPayload :=
  { name_unique := "鱼香肉丝", kitchen_id := 1, name_display := "y", status := 0 }

/-! ## Theorems -/

/-- The spec-modelled import loop fails fast: with every row of `pre` passing
the required-field check and `bad` missing the required field reported by
`rowMissing`, the import over `pre ++ bad :: post` inserts exactly `pre` and
reports the failing row's 1-based index (counting from `k`) with the field's
label; nothing of `post` is inserted. -/
theorem importFrom_fail_fast (headers : List ImportHeader)
    (bad : List (String × String)) (hh : ImportHeader)
    (post : List (List (String × String)))
    (hbad : rowMissing headers bad = some hh) :
    ∀ (pre : List (List (String × String))) (k : Nat),
      (∀ r ∈ pre, rowMissing headers r = none) →
      importFrom headers k (pre ++ bad :: post) = (pre, some (k + pre.length, hh.label)) := by
  intro pre
  induction pre with
  | nil =>
    intro k _
    simp [importFrom, hbad]
  | cons r pre ih =>
    intro k hpre
    have hr : rowMissing headers r = none := hpre r (List.mem_cons_self r pre)
    have ih2 := ih (k + 1) (fun x hx => hpre x (List.mem_cons_of_mem r hx))
    have harith : k + 1 + pre.length = k + (pre.length + 1) := by omega
    simp [importFrom, hr, ih2, harith]

/-- C2: for every dish argument (including a missing/`None` dish, the falsy
case), each of `DishDal.upload`, `DishDal.online` and `DishDal.offline`
returns a dict whose `result` field is `False`, whose `msg` is "菜品无效"
exactly when the dish argument is falsy and the empty string otherwise, and
leaves the session state untouched. -/
theorem bulk_stub_operations_always_fail {σ : Type} (dish : Option Dish) (db : σ) :
    (DishDal.upload dish db).1.result = false ∧
    (DishDal.online dish db).1.result = false ∧
    (DishDal.offline dish db).1.result = false ∧
    (DishDal.upload dish db).1.msg = (if dish.isNone then "菜品无效" else "") ∧
    (DishDal.online dish db).1.msg = (if dish.isNone then "菜品无效" else "") ∧
    (DishDal.offline dish db).1.msg = (if dish.isNone then "菜品无效" else "") ∧
    (DishDal.upload dish db).2 = db ∧
    (DishDal.online dish db).2 = db ∧
    (DishDal.offline dish db).2 = db := by
  unfold DishDal.upload DishDal.online DishDal.offline
  cases dish <;> simp

/-- C3: for every request whose payload fails input validation (at least one
validation error), the service responds with HTTP status 200 and an envelope
with code 400, the original payload under `body`, and a message derived from
the first validation error only, with the known English validation messages
rewritten to fixed Chinese texts. -/
theorem validation_handler_envelope (errors : List String) (body msg0 : String)
    (rest : List String) (h : errors = msg0 :: rest) :
    validation_exception_handler errors body =
      some ⟨200, rewrite_validation_msg msg0, 400, some body⟩ ∧
    validation_exception_handler errors body =
      validation_exception_handler [msg0] body ∧
    rewrite_validation_msg "field required" = "请求失败，缺少必填项！" ∧
    rewrite_validation_msg "value is not a valid list" = "类型错误，提交参数应该为列表！" ∧
    rewrite_validation_msg "value is not a valid int" = "类型错误，提交参数应该为整数！" ∧
    rewrite_validation_msg "value could not be parsed to a boolean" = "类型错误，提交参数应该为布尔值！" ∧
    rewrite_validation_msg "Input should be a valid list" = "类型错误，输入应该是一个有效的列表！" := by
  subst h
  exact ⟨rfl, rfl, rfl, rfl, rfl, rfl, rfl⟩

/-- Witness for C3 at a concrete failing payload: one `field required` error
with body `{"x":1}` is answered 200/400 with the Chinese rewrite and the
echoed body. -/
theorem validation_handler_envelope_witness :
    validation_exception_handler ["field required", "second"] "x=1" =
      some ⟨200, rewrite_validation_msg "field required", 400, some "x=1"⟩ ∧
    validation_exception_handler ["field required", "second"] "x=1" =
      validation_exception_handler ["field required"] "x=1" ∧
    rewrite_validation_msg "field required" = "请求失败，缺少必填项！" ∧
    rewrite_validation_msg "value is not a valid list" = "类型错误，提交参数应该为列表！" ∧
    rewrite_validation_msg "value is not a valid int" = "类型错误，提交参数应该为整数！" ∧
    rewrite_validation_msg "value could not be parsed to a boolean" = "类型错误，提交参数应该为布尔值！" ∧
    rewrite_validation_msg "Input should be a valid list" = "类型错误，输入应该是一个有效的列表！" :=
  validation_handler_envelope ["field required", "second"] "x=1" "field required" ["second"] rfl

/-- C4: every exception reaching the catch-all handler is answered with HTTP
status 500 and an envelope whose code is 500 and whose message is exactly
`str(exc)`, or the fixed text "接口异常！" when the exception object is
falsy. -/
theorem all_handler_envelope (exc : PyException) :
    all_exception_handler exc =
      ⟨500, if exc.truthy then exc.text else "接口异常！", 500, none⟩ := rfl

/-- C6: in a DAO `list()` query, `limit = 0` returns every matching row with
no slicing, and `limit = n ≠ 0` with `offset = k` returns exactly the slice
`[k, k+n)` of the ordering that the `limit = 0` result would have. -/
theorem get_datas_pagination {α : Type} (spec : α → Bool) (rows : List α)
    (n k : Nat) (hn : n ≠ 0) :
    get_datas spec 0 k rows = rows.filter spec ∧
    get_datas spec n k rows = ((get_datas spec 0 0 rows).drop k).take n := by
  constructor <;> simp [get_datas, hn]

/-- Witness for C6 at a concrete query: five rows filtered to the even ones,
paged with `limit = 2, offset = 1`. -/
theorem get_datas_pagination_witness :
    get_datas (fun x => x % 2 == 0) 0 1 [1, 2, 3, 4, 5, 6] =
      [1, 2, 3, 4, 5, 6].filter (fun x => x % 2 == 0) ∧
    get_datas (fun x => x % 2 == 0) 2 1 [1, 2, 3, 4, 5, 6] =
      ((get_datas (fun x => x % 2 == 0) 0 0 [1, 2, 3, 4, 5, 6]).drop 1).take 2 :=
  get_datas_pagination (fun x => x % 2 == 0) [1, 2, 3, 4, 5, 6] 2 1 (by decide)

/-- C7: the claim says updating a menu's `parent_id` to one of its own
descendants is rejected.  The code does not reject it: on the store
`[{id 1, parent none}, {id 2, parent 1}]`, node 2 is a descendant of node 1,
yet `PUT /menus/1` with `parent_id = 2` succeeds and produces a store in
which node 1 is its own ancestor — a `parent_id` cycle. -/
theorem put_menus_accepts_descendant_parent :
    ancestorWithin [⟨1, none⟩, ⟨2, some 1⟩] 2 1 2 = true ∧
    put_menus [⟨1, none⟩, ⟨2, some 1⟩] 1 (some 2) =
      .ok [⟨1, some 2⟩, ⟨2, some 1⟩] ∧
    ancestorWithin [⟨1, some 2⟩, ⟨2, some 1⟩] 2 1 1 = true :=
  ⟨rfl, rfl, rfl⟩

/-- C5: dish bulk import validates rows against `DishDal.import_headers`, in
which 名称/`name_unique`, 厨部/`kitchen_id` and 状态/`status` are the only
required fields; the import halts at the first row missing a required field,
reporting that row's 1-based index and the field's label, and inserts no row
after the failing one. -/
theorem dish_import_fail_fast (pre post : List (List (String × String)))
    (bad : List (String × String)) (hh : ImportHeader)
    (hpre : ∀ r ∈ pre, rowMissing dish_import_headers r = none)
    (hbad : rowMissing dish_import_headers bad = some hh) :
    (dish_import_headers.filter (fun h => h.required)).map (fun h => (h.label, h.field)) =
      [("名称", "name_unique"), ("厨部", "kitchen_id"), ("状态", "status")] ∧
    import_rows dish_import_headers (pre ++ bad :: post) =
      (pre, some (pre.length + 1, hh.label)) := by
  refine ⟨by decide, ?_⟩
  have h := importFrom_fail_fast dish_import_headers bad hh post hbad pre 1 hpre
  rw [import_rows, h]
  have harith : 1 + pre.length = pre.length + 1 := by omega
  rw [harith]

/-- Witness for C5 at the spec's example scenario: ten rows where the seventh
misses the required `name_unique` field; the import stops there, reporting
row 7 and the label 名称, having inserted only the six rows before it. -/
theorem dish_import_fail_fast_witness :
    ((dish_import_headers.filter (fun h => h.required)).map (fun h => (h.label, h.field)) =
      [("名称", "name_unique"), ("厨部", "kitchen_id"), ("状态", "status")]) ∧
    import_rows dish_import_headers
        (List.replicate 6 sampleDishRow ++ dishRowMissingName :: List.replicate 3 sampleDishRow) =
      (List.replicate 6 sampleDishRow, some (7, "名称")) :=
  dish_import_fail_fast (List.replicate 6 sampleDishRow) (List.replicate 3 sampleDishRow)
    dishRowMissingName ⟨"名称", "name_unique", true⟩ (by decide) (by decide)

/-- C8: the batch user-delete endpoint refuses any id list containing the
calling user's id or the id 1, and the role delete/update endpoints refuse
role id 1; in each refused case the endpoint returns an error response and
the store is left exactly as it was. -/
theorem superuser_guard_endpoints (st : AuthState) (uid : Nat)
    (ids_u ids_r : List Nat) (new_name : String)
    (hu : uid ∈ ids_u ∨ 1 ∈ ids_u) (hr : 1 ∈ ids_r) :
    (delete_users uid ids_u st).1.isError = true ∧
    (delete_users uid ids_u st).2 = st ∧
    (delete_roles ids_r st).1.isError = true ∧
    (delete_roles ids_r st).2 = st ∧
    (put_role 1 new_name st).1.isError = true ∧
    (put_role 1 new_name st).2 = st := by
  have hd : (delete_users uid ids_u st).1.isError = true ∧ (delete_users uid ids_u st).2 = st := by
    unfold delete_users
    by_cases h1 : uid ∈ ids_u
    · rw [if_pos h1]; exact ⟨rfl, rfl⟩
    · have h2 : 1 ∈ ids_u := hu.resolve_left h1
      rw [if_neg h1, if_pos h2]; exact ⟨rfl, rfl⟩
  have hro : (delete_roles ids_r st).1.isError = true ∧ (delete_roles ids_r st).2 = st := by
    unfold delete_roles
    rw [if_pos hr]; exact ⟨rfl, rfl⟩
  have hp : (put_role 1 new_name st).1.isError = true ∧ (put_role 1 new_name st).2 = st := by
    unfold put_role
    rw [if_pos rfl]; exact ⟨rfl, rfl⟩
  exact ⟨hd.1, hd.2, hro.1, hro.2, hp.1, hp.2⟩

/-- Witness for C8 at a concrete store: user 2 deleting an id list containing
itself, a role delete naming id 1, and a role update naming id 1 are all
refused with the store unchanged. -/
theorem superuser_guard_endpoints_witness :
    (delete_users 2 [2, 3] sampleAuthState).1.isError = true ∧
    (delete_users 2 [2, 3] sampleAuthState).2 = sampleAuthState ∧
    (delete_roles [1] sampleAuthState).1.isError = true ∧
    (delete_roles [1] sampleAuthState).2 = sampleAuthState ∧
    (put_role 1 "改名" sampleAuthState).1.isError = true ∧
    (put_role 1 "改名" sampleAuthState).2 = sampleAuthState :=
  superuser_guard_endpoints sampleAuthState 2 [2, 3] [1] "改名"
    (Or.inl (by decide)) (by decide)

/-- C10: a dish payload whose `name_unique` exceeds 10 characters is rejected
by schema validation before any database access — both the create and the
update endpoint answer with the validation envelope and leave the table
untouched — and, although the column itself would permit up to 50
characters, every table that satisfies the 10-character bound still
satisfies it after any create or update through the API. -/
theorem dish_name_unique_schema_bound (tbl : DishTable) (p q : DishPayload)
    (next_id data_id nid did : Nat)
    (hlong : dish_schema_name_unique_max_length < p.name_unique.length)
    (hinv : tbl.rows.all
      (fun d => decide (d.name_unique.length ≤ dish_schema_name_unique_max_length)) = true) :
    dish_schema_name_unique_max_length < dish_column_name_unique_capacity ∧
    create_dish p next_id tbl =
      (⟨200, "ensure this value has at most 10 characters", 400, some p.name_unique⟩, tbl) ∧
    put_dish data_id p tbl =
      (⟨200, "ensure this value has at most 10 characters", 400, some p.name_unique⟩, tbl) ∧
    (create_dish q nid tbl).2.rows.all
      (fun d => decide (d.name_unique.length ≤ dish_schema_name_unique_max_length)) = true ∧
    (put_dish did q tbl).2.rows.all
      (fun d => decide (d.name_unique.length ≤ dish_schema_name_unique_max_length)) = true := by
  have hvp : validate_dish_payload p = false := by
    simp only [validate_dish_payload, decide_eq_false_iff_not]
    omega
  refine ⟨by decide, by simp [create_dish, hvp], by simp [put_dish, hvp], ?_, ?_⟩
  · by_cases hq : validate_dish_payload q
    · have hqlen : q.name_unique.length ≤ dish_schema_name_unique_max_length := by
        simpa [validate_dish_payload] using hq
      simp [create_dish, hq, dish_create_data, List.all_append, hinv, hqlen]
    · simp [create_dish, hq, hinv]
  · by_cases hq : validate_dish_payload q
    · have hqlen : q.name_unique.length ≤ dish_schema_name_unique_max_length := by
        simpa [validate_dish_payload] using hq
      rw [List.all_eq_true] at hinv ⊢
      intro d hd
      simp only [put_dish, hq, if_pos, dish_put_data] at hd
      rcases List.mem_map.mp hd with ⟨d0, hd0, hmap⟩
      by_cases hid : d0.id = did
      · simp only [hid, if_pos] at hmap
        subst hmap
        simpa using hqlen
      · simp only [hid, if_neg, ite_false] at hmap
        subst hmap
        exact hinv d0 hd0
    · simp [put_dish, hq, hinv]

/-- Witness for C10 at a concrete table: the 12-character payload is rejected
unchanged by both endpoints, and create/update with a valid payload keep
every row within the 10-character bound. -/
theorem dish_name_unique_schema_bound_witness :
    dish_schema_name_unique_max_length < dish_column_name_unique_capacity ∧
    create_dish longDishPayload 2 sampleDishTable =
      (⟨200, "ensure this value has at most 10 characters", 400,
        some longDishPayload.name_unique⟩, sampleDishTable) ∧
    put_dish 1 longDishPayload sampleDishTable =
      (⟨200, "ensure this value has at most 10 characters", 400,
        some longDishPayload.name_unique⟩, sampleDishTable) ∧
    (create_dish okDishPayload 2 sampleDishTable).2.rows.all
      (fun d => decide (d.name_unique.length ≤ dish_schema_name_unique_max_length)) = true ∧
    (put_dish 1 okDishPayload sampleDishTable).2.rows.all
      (fun d => decide (d.name_unique.length ≤ dish_schema_name_unique_max_length)) = true :=
  dish_name_unique_schema_bound sampleDishTable longDishPayload okDishPayload
    2 1 2 1 (by decide) (by decide)

/-- The `update` mutation leaves the row's url unchanged. -/
theorem applyUpdate_img_url (n : Nat) (img : DishImage) :
    (applyUpdate n img).img_url = img.img_url := by
  simp only [applyUpdate]
  split
  · rfl
  · split <;> rfl

/-- The `original` mutation leaves the row's url unchanged. -/
theorem applyOriginal_img_url (n : Nat) (img : DishImage) :
    (applyOriginal n img).img_url = img.img_url := by
  simp only [applyOriginal]
  repeat' split
  all_goals rfl

/-- Erasing a row cannot create a url. -/
theorem mem_imgUrls_eraseFirst (p : DishImage → Bool) (u : String) :
    ∀ imgs : List DishImage, u ∈ imgUrls (eraseFirst p imgs) → u ∈ imgUrls imgs := by
  intro imgs
  induction imgs with
  | nil => intro h; simpa [eraseFirst] using h
  | cons x xs ih =>
    simp only [eraseFirst]
    split
    · intro h
      simp only [imgUrls, List.map_cons, List.mem_cons]
      exact Or.inr (by simpa [imgUrls] using h)
    · intro h
      simp only [imgUrls, List.map_cons, List.mem_cons] at h ⊢
      rcases h with h | h
      · exact Or.inl h
      · exact Or.inr (by simpa [imgUrls] using ih (by simpa [imgUrls] using h))

/-- A url-preserving in-place mutation leaves the url multiset unchanged. -/
theorem imgUrls_modifyFirst (p : DishImage → Bool) (f : DishImage → DishImage)
    (hf : ∀ x, (f x).img_url = x.img_url) :
    ∀ imgs, imgUrls (modifyFirst p f imgs) = imgUrls imgs := by
  intro imgs
  induction imgs with
  | nil => rfl
  | cons x xs ih =>
    simp only [modifyFirst]
    split
    · simp [imgUrls, hf]
    · simp only [imgUrls, List.map_cons] at ih ⊢
      rw [ih]

/-- Membership in the add-urls of the tail lifts to the whole list. -/
theorem mem_addUrls_cons (s x : String) (rest : List String)
    (h : x ∈ addUrls rest) : x ∈ addUrls (s :: rest) := by
  rcases hda : dirAddUrl s with _ | v
  · simpa [addUrls, List.filterMap_cons, hda] using h
  · simp only [addUrls, List.filterMap_cons, hda, List.mem_cons]
    exact Or.inr (by simpa [addUrls] using h)

/-- The url of an `add` directive is among the list's add-urls. -/
theorem dirAddUrl_mem_addUrls (s x : String) (rest : List String)
    (h : dirAddUrl s = some x) : x ∈ addUrls (s :: rest) := by
  simp [addUrls, List.filterMap_cons, h]

/-- `.first()` finds nothing when the url is absent. -/
theorem find?_url_eq_none (u : String) (imgs : List DishImage) (h : u ∉ imgUrls imgs) :
    imgs.find? (fun i => i.img_url == u) = none := by
  rw [List.find?_eq_none]
  intro x hx hbe
  apply h
  have hxu : x.img_url = u := by simpa using hbe
  simp only [imgUrls]
  exact List.mem_map.mpr ⟨x, hx, hxu⟩

/-- `.first()` finding a row means the url is present. -/
theorem url_mem_of_find?_some (u : String) (imgs : List DishImage) (i : DishImage)
    (h : imgs.find? (fun j => j.img_url == u) = some i) : u ∈ imgUrls imgs := by
  have hm := List.mem_of_find?_eq_some h
  have hp := List.find?_some h
  have hiu : i.img_url = u := by simpa using hp
  simp only [imgUrls]
  exact List.mem_map.mpr ⟨i, hm, hiu⟩

/-- The directive loop fails whenever the list holds a `delete` directive for
a url that is neither among the working rows nor produced by any `add`
directive of the list: every step either errors out at once or preserves
that the url is absent, and the `delete` step itself errors on it. -/
theorem applyOpers_missing_delete_error (data_id : Nat) (u : String) :
    ∀ (opers : List String) (n : Nat) (imgs : List DishImage),
      (∃ s ∈ opers, ∃ t, operParts s = u :: "delete" :: t) →
      u ∉ imgUrls imgs → u ∉ addUrls opers →
      ∃ e, DishDal.applyOpers data_id opers n imgs = .error e := by
  intro opers
  induction opers with
  | nil =>
    intro n imgs hmem _ _
    rcases hmem with ⟨s, hs, _⟩
    exact absurd hs (List.not_mem_nil s)
  | cons s rest ih =>
    intro n imgs hmem hnotin hnoadd
    rcases hp : operParts s with _ | ⟨url, tl1⟩
    · exact ⟨"IndexError", by simp [DishDal.applyOpers, hp]⟩
    rcases tl1 with _ | ⟨typ, tl⟩
    · exact ⟨"IndexError", by simp [DishDal.applyOpers, hp]⟩
    by_cases hurl : url = ""
    · exact ⟨"菜品图片地址无效", by simp [DishDal.applyOpers, hp, hurl]⟩
    by_cases htyp_add : typ = "add"
    · subst htyp_add
      have hurlmem : url ∈ addUrls (s :: rest) :=
        dirAddUrl_mem_addUrls s url rest (by simp [dirAddUrl, hp])
      have hne : u ≠ url := fun h => hnoadd (h ▸ hurlmem)
      have hmem' : ∃ s0 ∈ rest, ∃ t, operParts s0 = u :: "delete" :: t := by
        rcases hmem with ⟨s0, hs0, t, hps0⟩
        rcases List.mem_cons.mp hs0 with rfl | hs0r
        · rw [hp] at hps0
          injection hps0 with h1 h2
          injection h2 with h2a _
          exact absurd h2a (by decide)
        · exact ⟨s0, hs0r, t, hps0⟩
      have hnotin' : u ∉ imgUrls (imgs ++
          [{ product_type := 1, product_id := data_id, img_platform := "default",
             img_url := url, is_first := if n + 10 = 10 then 1 else 0,
             order_number := n + 10 }]) := by
        simp only [imgUrls, List.map_append, List.map_cons, List.map_nil, List.mem_append,
          List.mem_cons, List.not_mem_nil, or_false]
        rintro (h | h)
        · exact hnotin (by simpa [imgUrls] using h)
        · exact hne h
      have hnoadd' : u ∉ addUrls rest := fun h => hnoadd (mem_addUrls_cons s u rest h)
      obtain ⟨e, he⟩ := ih (n + 10) _ hmem' hnotin' hnoadd'
      refine ⟨e, ?_⟩
      simp only [DishDal.applyOpers, hp]
      simp +decide [hurl]
      simpa using he
    by_cases htyp_del : typ = "delete"
    · subst htyp_del
      rcases hf : imgs.find? (fun i => i.img_url == url) with _ | i
      · exact ⟨"UnmappedInstanceError", by
          simp only [DishDal.applyOpers, hp]; simp +decide [hurl, hf]⟩
      · have hurl_in : url ∈ imgUrls imgs := url_mem_of_find?_some url imgs i hf
        have hne : u ≠ url := fun h => hnotin (h ▸ hurl_in)
        have hmem' : ∃ s0 ∈ rest, ∃ t, operParts s0 = u :: "delete" :: t := by
          rcases hmem with ⟨s0, hs0, t, hps0⟩
          rcases List.mem_cons.mp hs0 with rfl | hs0r
          · rw [hp] at hps0
            injection hps0 with h1 _
            exact absurd h1.symm hne
          · exact ⟨s0, hs0r, t, hps0⟩
        have hnotin' : u ∉ imgUrls (eraseFirst (fun i => i.img_url == url) imgs) :=
          fun h => hnotin (mem_imgUrls_eraseFirst _ u imgs h)
        have hnoadd' : u ∉ addUrls rest := fun h => hnoadd (mem_addUrls_cons s u rest h)
        obtain ⟨e, he⟩ := ih n _ hmem' hnotin' hnoadd'
        refine ⟨e, ?_⟩
        simp only [DishDal.applyOpers, hp]
        simp +decide [hurl, hf]
        simpa using he
    by_cases htyp_upd : typ = "update"
    · subst htyp_upd
      rcases hf : imgs.find? (fun i => i.img_url == url) with _ | i
      · exact ⟨"AttributeError", by
          simp only [DishDal.applyOpers, hp]; simp +decide [hurl, hf]⟩
      · have hmem' : ∃ s0 ∈ rest, ∃ t, operParts s0 = u :: "delete" :: t := by
          rcases hmem with ⟨s0, hs0, t, hps0⟩
          rcases List.mem_cons.mp hs0 with rfl | hs0r
          · rw [hp] at hps0
            injection hps0 with h1 h2
            injection h2 with h2a _
            exact absurd h2a (by decide)
          · exact ⟨s0, hs0r, t, hps0⟩
        have hnotin' : u ∉ imgUrls (modifyFirst (fun i => i.img_url == url)
            (applyUpdate (n + 10)) imgs) := by
          rw [imgUrls_modifyFirst _ _ (applyUpdate_img_url (n + 10))]
          exact hnotin
        have hnoadd' : u ∉ addUrls rest := fun h => hnoadd (mem_addUrls_cons s u rest h)
        obtain ⟨e, he⟩ := ih (n + 10) _ hmem' hnotin' hnoadd'
        exact ⟨e, by simp only [DishDal.applyOpers, hp]; simp +decide [hurl, hf, he]⟩
    by_cases htyp_org : typ = "original"
    · subst htyp_org
      rcases hf : imgs.find? (fun i => i.img_url == url) with _ | i
      · exact ⟨"AttributeError", by
          simp only [DishDal.applyOpers, hp]; simp +decide [hurl, hf]⟩
      · have hmem' : ∃ s0 ∈ rest, ∃ t, operParts s0 = u :: "delete" :: t := by
          rcases hmem with ⟨s0, hs0, t, hps0⟩
          rcases List.mem_cons.mp hs0 with rfl | hs0r
          · rw [hp] at hps0
            injection hps0 with h1 h2
            injection h2 with h2a _
            exact absurd h2a (by decide)
          · exact ⟨s0, hs0r, t, hps0⟩
        have hnotin' : u ∉ imgUrls (modifyFirst (fun i => i.img_url == url)
            (applyOriginal (n + 10)) imgs) := by
          rw [imgUrls_modifyFirst _ _ (applyOriginal_img_url (n + 10))]
          exact hnotin
        have hnoadd' : u ∉ addUrls rest := fun h => hnoadd (mem_addUrls_cons s u rest h)
        obtain ⟨e, he⟩ := ih (n + 10) _ hmem' hnotin' hnoadd'
        exact ⟨e, by simp only [DishDal.applyOpers, hp]; simp +decide [hurl, hf, he]⟩
    · exact ⟨"菜品图片操作失败：无效的操作类型：{oper_type}", by
        simp only [DishDal.applyOpers, hp]
        simp [hurl, htyp_add, htyp_del, htyp_upd, htyp_org]⟩

/-- C1: a call to `DishDal.update_image` whose directive list contains a
`url?delete` directive for a url that matches no `dish_image` row — neither
an existing one nor one any `add` directive of the same list would create —
raises, and the transactional request leaves the store exactly as it was: no
directive of the list, including earlier `add` directives, is applied. -/
theorem update_image_missing_delete_fails (store : ImageStore) (data_id : Nat)
    (opers : List String) (u : String)
    (hmem : ∃ s ∈ opers, ∃ t, operParts s = u :: "delete" :: t)
    (hnotin : u ∉ imgUrls store.images)
    (hnoadd : u ∉ addUrls opers) :
    (∃ e, DishDal.update_image store data_id opers = .error e) ∧
    DishDal.commitImageStep store data_id opers = store := by
  have herr : ∃ e, DishDal.update_image store data_id opers = .error e := by
    unfold DishDal.update_image
    by_cases hd : store.dish_ids.contains data_id
    · rw [if_pos hd]
      exact applyOpers_missing_delete_error data_id u opers 0 store.images hmem hnotin hnoadd
    · rw [if_neg hd]
      exact ⟨_, rfl⟩
  refine ⟨herr, ?_⟩
  obtain ⟨e, he⟩ := herr
  simp [DishDal.commitImageStep, he]

/-- Witness for C1 at the spec's example scenario: directives
`url1?add`, `url2?add`, `urlX?delete` against a dish with no images — the
step raises and the store is unchanged. -/
theorem update_image_missing_delete_fails_witness :
    (∃ e, DishDal.update_image ⟨[1], []⟩ 1 ["url1?add", "url2?add", "urlX?delete"] = .error e) ∧
    DishDal.commitImageStep ⟨[1], []⟩ 1 ["url1?add", "url2?add", "urlX?delete"] = ⟨[1], []⟩ :=
  update_image_missing_delete_fails ⟨[1], []⟩ 1 ["url1?add", "url2?add", "urlX?delete"] "urlX"
    ⟨"urlX?delete", by decide, [], by decide⟩ (by decide) (by decide)

/-- The directive loop on an all-`add` list with non-empty urls appends
exactly the rows `addedImages` describes, in directive order. -/
theorem applyOpers_all_adds (data_id : Nat) :
    ∀ (opers : List String) (n : Nat) (imgs : List DishImage),
      (∀ s ∈ opers, ∃ u t, u ≠ "" ∧ operParts s = u :: "add" :: t) →
      DishDal.applyOpers data_id opers n imgs =
        .ok (imgs ++ DishDal.addedImages data_id n (opers.map dirUrl)) := by
  intro opers
  induction opers with
  | nil =>
    intro n imgs _
    simp [DishDal.applyOpers, DishDal.addedImages]
  | cons s rest ih =>
    intro n imgs hall
    obtain ⟨u, t, hu, hp⟩ := hall s (List.mem_cons_self s rest)
    have hrest := fun s0 hs0 => hall s0 (List.mem_cons_of_mem s hs0)
    have hdu : dirUrl s = u := by simp [dirUrl, hp]
    have hrec := ih (n + 10)
      (imgs ++ [{ product_type := 1, product_id := data_id, img_platform := "default",
                  img_url := u, is_first := if n + 10 = 10 then 1 else 0,
                  order_number := n + 10 }]) hrest
    simp only [List.map_cons, hdu, DishDal.addedImages]
    simp only [DishDal.applyOpers, hp]
    simp +decide [hu]
    simpa using hrec

/-- `addedImages` inserts one row per url. -/
theorem addedImages_length (d : Nat) :
    ∀ (us : List String) (n : Nat), (DishDal.addedImages d n us).length = us.length := by
  intro us
  induction us with
  | nil => intro n; rfl
  | cons u us ih => intro n; simp [DishDal.addedImages, ih]

/-- The order numbers of `addedImages` are `n + 10, n + 20, …` in row
order. -/
theorem addedImages_map_order (d : Nat) :
    ∀ (us : List String) (n : Nat),
      (DishDal.addedImages d n us).map (fun a => a.order_number) =
        (List.range us.length).map (fun i => n + 10 * (i + 1)) := by
  intro us
  induction us with
  | nil => intro n; rfl
  | cons u us ih =>
    intro n
    have hfun : (fun i => n + 10 + 10 * (i + 1)) = (fun i => n + 10 * (i + 1 + 1)) := by
      funext i; ring
    simp [DishDal.addedImages, List.range_succ_eq_map, List.map_map, ih, hfun,
      Function.comp_def]

/-- The first-image flags of `addedImages`: a row is flagged exactly when its
order number is 10. -/
theorem addedImages_map_first (d : Nat) :
    ∀ (us : List String) (n : Nat),
      (DishDal.addedImages d n us).map (fun a => a.is_first) =
        (List.range us.length).map (fun i => if n + 10 * (i + 1) = 10 then 1 else 0) := by
  intro us
  induction us with
  | nil => intro n; rfl
  | cons u us ih =>
    intro n
    have hfun : (fun i => if n + 10 + 10 * (i + 1) = 10 then (1 : Nat) else 0) =
        (fun i => if n + 10 * (i + 1 + 1) = 10 then 1 else 0) := by
      funext i
      rw [show n + 10 + 10 * (i + 1) = n + 10 * (i + 1 + 1) from by ring]
    simp [DishDal.addedImages, List.range_succ_eq_map, List.map_map, ih, hfun,
      Function.comp_def]

/-- Every row of `addedImages` carries product type 1, the dish's id and the
default platform. -/
theorem addedImages_all_fields (d : Nat) :
    ∀ (us : List String) (n : Nat),
      (DishDal.addedImages d n us).all
        (fun a => a.product_type == 1 && a.product_id == d &&
          a.img_platform == "default") = true := by
  intro us
  induction us with
  | nil => intro n; rfl
  | cons u us ih => intro n; simp [DishDal.addedImages, ih]

/-- C9: a call to `DishDal.update_image` whose directive list consists solely
of `add` directives with non-empty urls succeeds and appends exactly one
`dish_image` row per directive for that dish, with order numbers
10, 20, …, 10·k in list order and `is_first = 1` for the first appended row
and 0 for every other one. -/
theorem update_image_all_adds (store : ImageStore) (data_id : Nat) (opers : List String)
    (hdish : store.dish_ids.contains data_id = true)
    (hall : ∀ s ∈ opers, ∃ u t, u ≠ "" ∧ operParts s = u :: "add" :: t) :
    DishDal.update_image store data_id opers =
      .ok (store.images ++ DishDal.addedImages data_id 0 (opers.map dirUrl)) ∧
    (DishDal.addedImages data_id 0 (opers.map dirUrl)).length = opers.length ∧
    (DishDal.addedImages data_id 0 (opers.map dirUrl)).map (fun a => a.order_number) =
      (List.range opers.length).map (fun i => 10 * (i + 1)) ∧
    (DishDal.addedImages data_id 0 (opers.map dirUrl)).map (fun a => a.is_first) =
      (List.range opers.length).map (fun i => if i = 0 then 1 else 0) ∧
    (DishDal.addedImages data_id 0 (opers.map dirUrl)).all
      (fun a => a.product_type == 1 && a.product_id == data_id &&
        a.img_platform == "default") = true := by
  refine ⟨?_, ?_, ?_, ?_, addedImages_all_fields data_id (opers.map dirUrl) 0⟩
  · rw [DishDal.update_image, if_pos hdish]
    exact applyOpers_all_adds data_id opers 0 store.images hall
  · rw [addedImages_length, List.length_map]
  · rw [addedImages_map_order, List.length_map]
    have hfun : (fun i => 0 + 10 * (i + 1)) = (fun i => 10 * (i + 1)) := by
      funext i; ring
    rw [hfun]
  · rw [addedImages_map_first, List.length_map]
    have hfun : (fun i => if 0 + 10 * (i + 1) = 10 then (1 : Nat) else 0) =
        (fun i => if i = 0 then 1 else 0) := by
      funext i
      cases i with
      | zero => norm_num
      | succ j =>
        have h1 : ¬(0 + 10 * (j + 1 + 1) = 10) := by omega
        simp [h1]
    rw [hfun]

/-- Witness for C9 at a concrete call: two `add` directives against a dish
with no images insert two rows with order numbers 10, 20 and first-flags
1, 0. -/
theorem update_image_all_adds_witness :
    DishDal.update_image ⟨[1], []⟩ 1 ["a?add", "b?add"] =
      .ok (([] : List DishImage) ++
        DishDal.addedImages 1 0 (["a?add", "b?add"].map dirUrl)) ∧
    (DishDal.addedImages 1 0 (["a?add", "b?add"].map dirUrl)).length = 2 ∧
    (DishDal.addedImages 1 0 (["a?add", "b?add"].map dirUrl)).map (fun a => a.order_number) =
      (List.range 2).map (fun i => 10 * (i + 1)) ∧
    (DishDal.addedImages 1 0 (["a?add", "b?add"].map dirUrl)).map (fun a => a.is_first) =
      (List.range 2).map (fun i => if i = 0 then 1 else 0) ∧
    (DishDal.addedImages 1 0 (["a?add", "b?add"].map dirUrl)).all
      (fun a => a.product_type == 1 && a.product_id == 1 &&
        a.img_platform == "default") = true :=
  update_image_all_adds ⟨[1], []⟩ 1 ["a?add", "b?add"] (by decide)
    (by
      intro s hs
      rcases List.mem_cons.mp hs with rfl | hs2
      · exact ⟨"a", [], by decide, by decide⟩
      rcases List.mem_cons.mp hs2 with rfl | hs3
      · exact ⟨"b", [], by decide, by decide⟩
      · exact absurd hs3 (List.not_mem_nil s))

end JRCatering
